import Mathlib

/-!
Shallow embedding of the task-queue execution engine of `mqtt_manager.py`
(class `NavigationManager` and class `Task`).

Modelling conventions:
* Wall-clock instants (`time.time()`) are rationals (`ℚ`); every operation of
  the engine is given the ambient clock value `now` at the moment it runs.
  The thresholds 2.0, 1.5 and 0.5 of the source are the rationals 2, 3/2, 1/2.
* `payload` is opaque pass-through data: the queue machinery never inspects it
  (the dispatch helpers only forward it to ROS publishers, which are external
  I/O outside the model), so it is modelled as a natural number identifier.
* Python mutation of `self` becomes explicit state passing on the structure
  `NavigationManager`; a method that mutates and returns a value returns a
  pair.  An uncaught Python exception raised inside the executor loop body is
  modelled as an error string (the loop catches it at the top level, keeping
  the state reached at the moment of the raise).
* `rospy` publishing, logging and MQTT plumbing are external effects with no
  influence on the engine state; they are dropped.
-/

namespace MqttManager

/-- `class TaskType(Enum)` of `mqtt_manager.py`. -/
inductive TaskType where
  | navigation
  | arm_command
  | arm_coordinate
  | gripper
deriving DecidableEq, Repr

/-- Opaque pass-through payload (a parsed MQTT dict in the source); the queue
engine never looks inside it. -/
abbrev Payload := Nat

/-- `class Task` of `mqtt_manager.py`: exactly the attributes assigned in
`Task.__init__` — `task_type`, `payload`, and `start_time` (initially `None`).
The source class has no further attribute. -/
structure Task where
  task_type : TaskType
  payload : Payload
  start_time : Option ℚ
deriving DecidableEq, Repr

/-- `Task.__init__(task_type, payload)`: records the type and payload and sets
`start_time = None`.  No clock is read and no timestamp is stored. -/
def Task.create (ty : TaskType) (p : Payload) : Task :=
  { task_type := ty, payload := p, start_time := none }

/-- The mutable state of `class NavigationManager`: the fields assigned in
`NavigationManager.__init__` (locks, ROS handles and the executor thread are
concurrency plumbing, not state the algorithms read). -/
structure NavigationManager where
  nav_status : Int
  last_nav_status : Option Int
  arm_running_status : Bool
  last_arm_running_status : Option Bool
  task_queue : List Task
  current_task : Option Task
  task_paused : Bool
  task_completion_delay : ℚ
  task_completion_time : Option ℚ
deriving DecidableEq, Repr

/-- `NavigationManager.__init__`: initial field values (the source initialises
`task_completion_delay = 0.5`). -/
def NavigationManager.init : NavigationManager :=
  { nav_status := 0
  , last_nav_status := none
  , arm_running_status := false
  , last_arm_running_status := none
  , task_queue := []
  , current_task := none
  , task_paused := false
  , task_completion_delay := 1/2
  , task_completion_time := none }

/-- `NavigationManager.update_nav_status` (ROS `/navigation_status` callback):
stores the received state when it differs from the last received one. -/
def update_nav_status (s : NavigationManager) (state : Int) : NavigationManager :=
  if some state = s.last_nav_status then s
  else { s with nav_status := state, last_nav_status := some state }

/-- `NavigationManager.update_arm_status` (ROS `/arm_status` callback):
stores the received running status when it differs from the last one. -/
def update_arm_status (s : NavigationManager) (running : Bool) : NavigationManager :=
  if some running = s.last_arm_running_status then s
  else { s with arm_running_status := running, last_arm_running_status := some running }

/-- `NavigationManager.add_task(task_type, payload)`: refuses (returns `False`)
when `task_paused` is set, otherwise appends `Task(task_type, payload)` to the
tail of `task_queue` and returns `True`.  `now` is the ambient wall-clock at
the moment of the call; the source method never reads the clock and the
created `Task` records no timestamp, so the result cannot depend on `now`. -/
def add_task (s : NavigationManager) (ty : TaskType) (p : Payload) (now : ℚ) :
    Bool × NavigationManager :=
  if s.task_paused then (false, s)
  else (true, { s with task_queue := s.task_queue ++ [Task.create ty p] })

/-- Folding `add_task` over a list of commands arriving in order (the MQTT
handlers `handle_navigation`, `handle_arm_command`, ... each call
`add_task` once per inbound message). -/
def enqueue_all (s : NavigationManager) (ts : List (TaskType × Payload)) (now : ℚ) :
    NavigationManager :=
  ts.foldl (fun st tp => (add_task st tp.1 tp.2 now).2) s

/-- `NavigationManager._pause_task_queue`: sets `task_paused`, clears
`current_task`, and clears the whole `task_queue`. -/
def pause_task_queue (s : NavigationManager) : NavigationManager :=
  { s with task_paused := true, current_task := none, task_queue := [] }

/-- `NavigationManager.resume_task_queue`: clears the pause flag. -/
def resume_task_queue (s : NavigationManager) : NavigationManager :=
  { s with task_paused := false }

/-- `NavigationManager.set_task_completion_delay(delay)`: rejects a negative
delay (state unchanged), otherwise stores it. -/
def set_task_completion_delay (s : NavigationManager) (delay : ℚ) : NavigationManager :=
  if delay < 0 then s
  else { s with task_completion_delay := delay }

/-- `NavigationManager._is_task_completed(task)` evaluated at clock `now`.
Returns the boolean the source returns together with the state after the
method (the navigation fault / hand-controller branches call
`_pause_task_queue` before returning `True`).  `Except.error` models the
`TypeError` Python would raise computing `time.time() - task.start_time`
when `start_time` is still `None`. -/
def is_task_completed (s : NavigationManager) (task : Option Task) (now : ℚ) :
    Except String (Bool × NavigationManager) :=
  match task with
  | none => .ok (true, s)
  | some t =>
    match t.start_time with
    | none => .error "TypeError: unsupported operand type for subtraction"
    | some st =>
      let elapsed := now - st
      match t.task_type with
      | TaskType.navigation =>
        if elapsed < 2 then .ok (false, s)
        else if s.nav_status = 1 then .ok (true, pause_task_queue s)
        else if s.nav_status = 4 then .ok (true, pause_task_queue s)
        else if s.nav_status = 2 then .ok (true, s)
        else if s.nav_status = 3 then .ok (false, s)
        else .ok (false, s)
      | TaskType.arm_command =>
        if elapsed < 2 then .ok (false, s)
        else if s.arm_running_status then .ok (false, s)
        else .ok (true, s)
      | TaskType.arm_coordinate =>
        if elapsed < 2 then .ok (false, s)
        else if s.arm_running_status then .ok (false, s)
        else .ok (true, s)
      | TaskType.gripper =>
        if elapsed < 3/2 then .ok (false, s)
        else .ok (true, s)

/-- `NavigationManager._execute_task(task)` restricted to its state effect:
`task.start_time = time.time()`.  (The per-type dispatch that follows only
publishes ROS messages.) -/
def execute_task (t : Task) (now : ℚ) : Task :=
  { t with start_time := some now }

/-- Lines 277–281 of `_task_executor` (the spec's `try_take_next`): when no
task is current and the queue is non-empty, pop the head, make it current and
dispatch it (`_execute_task` stamps its `start_time`).  Returns the dispatched
task, when any, and the new state. -/
def try_take_next (s : NavigationManager) (now : ℚ) : Option Task × NavigationManager :=
  match s.current_task, s.task_queue with
  | none, h :: rest =>
      let d := execute_task h now
      (some d, { s with current_task := some d, task_queue := rest })
  | _, _ => (none, s)

/-- Lines 264–281 of `_task_executor`: the post-completion cooldown gate
followed by the dequeue.  While `task_completion_time` is set and less than
`task_completion_delay` has elapsed the iteration ends; once the wait is over
the timestamp is cleared and `try_take_next` runs. -/
def cooldown_and_take (s : NavigationManager) (now : ℚ) :
    NavigationManager × Option Task :=
  match s.task_completion_time with
  | some tc =>
      if now - tc < s.task_completion_delay then (s, none)
      else
        let s1 := { s with task_completion_time := none }
        let r := try_take_next s1 now
        (r.2, r.1)
  | none =>
      let r := try_take_next s now
      (r.2, r.1)

/-- Outcome of one iteration of the `_task_executor` loop body: the state when
the iteration ends, the task dispatched by it (if any), and the exception it
raised (if any — the loop's `except` clause catches it, keeping the state
reached at the raise). -/
structure TickResult where
  state : NavigationManager
  dispatched : Option Task
  raised : Option String
deriving DecidableEq, Repr

/-- Lines 252–281 of `_task_executor`, entered when `_is_task_completed`
returned `True` with post-method state `s1`: the duration computation reads
`self.current_task.start_time` — an `AttributeError` when the method itself
cleared `current_task` (the fault/override paths) — then
`task_completion_time = now` is recorded, `current_task` cleared, and the
cooldown gate and dequeue run. -/
def tick_complete_current (s1 : NavigationManager) (now : ℚ) : TickResult :=
  match s1.current_task with
  | none =>
      ⟨s1, none, some "AttributeError: NoneType object has no attribute start_time"⟩
  | some _ =>
      let s2 := { s1 with task_completion_time := some now, current_task := none }
      let r := cooldown_and_take s2 now
      ⟨r.1, r.2, none⟩

/-- One iteration of the `_task_executor` loop body at clock `now`:
skip when paused; else, when a task is current, evaluate
`_is_task_completed(self.current_task)` — if not complete the iteration ends,
if complete run `tick_complete_current` — and with no current task run the
cooldown gate and the dequeue directly. -/
def task_executor_tick (s : NavigationManager) (now : ℚ) : TickResult :=
  if s.task_paused then ⟨s, none, none⟩
  else
    match s.current_task with
    | some _ =>
      match is_task_completed s s.current_task now with
      | .error e => ⟨s, none, some e⟩
      | .ok (false, s1) => ⟨s1, none, none⟩
      | .ok (true, s1) => tick_complete_current s1 now
    | none =>
      let r := cooldown_and_take s now
      ⟨r.1, r.2, none⟩

/-- `_is_task_completed` either leaves the state alone or applies
`_pause_task_queue` (the only mutation on any of its paths). -/
lemma is_task_completed_state_cases (s : NavigationManager) (task : Option Task) (now : ℚ)
    (b : Bool) (s1 : NavigationManager)
    (h : is_task_completed s task now = .ok (b, s1)) :
    s1 = s ∨ s1 = pause_task_queue s := by
  rcases task with _ | t
  · simp only [is_task_completed, Except.ok.injEq, Prod.mk.injEq] at h
    exact .inl h.2.symm
  · obtain ⟨ty, p, stOpt⟩ := t
    rcases stOpt with _ | st
    · simp only [is_task_completed] at h
      exact Except.noConfusion h
    · rcases ty <;>
        simp only [is_task_completed] at h <;>
        split_ifs at h <;>
        simp only [Except.ok.injEq, Prod.mk.injEq] at h <;>
        tauto

/-- The boolean returned by `_is_task_completed` for a navigation task after
the settle window is `true` exactly on status codes 1, 2, 4. -/
theorem C2_nav_completion_iff (s : NavigationManager) (t : Task) (st now : ℚ)
    (hty : t.task_type = TaskType.navigation) (hst : t.start_time = some st) :
    (∃ s2, is_task_completed s (some t) now = .ok (true, s2)) ↔
      (2 ≤ now - st ∧ (s.nav_status = 1 ∨ s.nav_status = 2 ∨ s.nav_status = 4)) := by
  obtain ⟨ty, p, stOpt⟩ := t
  simp only at hty hst
  subst hty; subst hst
  simp only [is_task_completed]
  split_ifs with h1 h2 h3 h4 h5
  · constructor
    · rintro ⟨s2, hh⟩
      simp at hh
    · rintro ⟨hle, -⟩
      linarith
  · exact iff_of_true ⟨_, rfl⟩ ⟨by linarith, Or.inl h2⟩
  · exact iff_of_true ⟨_, rfl⟩ ⟨by linarith, Or.inr (Or.inr h3)⟩
  · exact iff_of_true ⟨_, rfl⟩ ⟨by linarith, Or.inr (Or.inl h4)⟩
  · constructor
    · rintro ⟨s2, hh⟩
      simp at hh
    · rintro ⟨hle, hor⟩
      rcases hor with h | h | h <;> omega
  · constructor
    · rintro ⟨s2, hh⟩
      simp at hh
    · rintro ⟨hle, hor⟩
      rcases hor with h | h | h <;> omega

/-- Witness for `C2_nav_completion_iff` at nav_status 2 with the settle window
elapsed. -/
theorem C2_witness :
    ∃ s2, is_task_completed { NavigationManager.init with nav_status := 2 }
      (some (⟨TaskType.navigation, 0, some 1⟩ : Task)) 4 = .ok (true, s2) :=
  (C2_nav_completion_iff { NavigationManager.init with nav_status := 2 }
      (⟨TaskType.navigation, 0, some 1⟩ : Task) 1 4 rfl rfl).mpr
    ⟨by norm_num, .inr (.inl rfl)⟩

/-- An arm task (pose command or coordinate) is reported complete exactly when
the 2.0-second settle window has elapsed and `arm_running_status` is false. -/
theorem C7_arm_completion_iff (s : NavigationManager) (t : Task) (st now : ℚ)
    (hty : t.task_type = TaskType.arm_command ∨ t.task_type = TaskType.arm_coordinate)
    (hst : t.start_time = some st) :
    (∃ s2, is_task_completed s (some t) now = .ok (true, s2)) ↔
      (2 ≤ now - st ∧ s.arm_running_status = false) := by
  obtain ⟨ty, p, stOpt⟩ := t
  simp only at hty hst
  subst hst
  rcases hty with hty | hty
  · subst hty
    simp only [is_task_completed]
    split_ifs with h1 h2
    · constructor
      · rintro ⟨s2, hh⟩
        simp at hh
      · rintro ⟨hle, -⟩
        linarith
    · constructor
      · rintro ⟨s2, hh⟩
        simp at hh
      · rintro ⟨-, harm⟩
        simp [harm] at h2
    · exact iff_of_true ⟨_, rfl⟩ ⟨by linarith, by simpa using h2⟩
  · subst hty
    simp only [is_task_completed]
    split_ifs with h1 h2
    · constructor
      · rintro ⟨s2, hh⟩
        simp at hh
      · rintro ⟨hle, -⟩
        linarith
    · constructor
      · rintro ⟨s2, hh⟩
        simp at hh
      · rintro ⟨-, harm⟩
        simp [harm] at h2
    · exact iff_of_true ⟨_, rfl⟩ ⟨by linarith, by simpa using h2⟩

/-- Witness for `C7_arm_completion_iff`: idle arm after the window. -/
theorem C7_witness :
    ∃ s2, is_task_completed NavigationManager.init
      (some (⟨TaskType.arm_command, 0, some 0⟩ : Task)) 2 = .ok (true, s2) :=
  (C7_arm_completion_iff NavigationManager.init
      (⟨TaskType.arm_command, 0, some 0⟩ : Task) 0 2 (.inl rfl) rfl).mpr
    ⟨by norm_num, rfl⟩

/-- A gripper task is reported complete exactly when 1.5 seconds have elapsed
since dispatch; the result neither reads nor changes any status field, so two
runs differing only in their status fields return the same boolean. -/
theorem C8_gripper_dwell (s1 s2 : NavigationManager) (t : Task) (st now : ℚ)
    (hty : t.task_type = TaskType.gripper) (hst : t.start_time = some st) :
    is_task_completed s1 (some t) now = .ok (decide (3/2 ≤ now - st), s1) ∧
    (is_task_completed s1 (some t) now).map Prod.fst =
      (is_task_completed s2 (some t) now).map Prod.fst := by
  obtain ⟨ty, p, stOpt⟩ := t
  simp only at hty hst
  subst hty; subst hst
  simp only [is_task_completed]
  split_ifs with h1
  · rw [decide_eq_false (by linarith : ¬ (3/2 ≤ now - st))]
    exact ⟨rfl, rfl⟩
  · rw [decide_eq_true (by linarith : (3/2 : ℚ) ≤ now - st)]
    exact ⟨rfl, rfl⟩

/-- Witness for `C8_gripper_dwell` after the dwell time. -/
theorem C8_witness :
    is_task_completed NavigationManager.init
      (some (⟨TaskType.gripper, 0, some 0⟩ : Task)) 2 =
      .ok (decide ((3/2 : ℚ) ≤ 2 - 0), NavigationManager.init) :=
  (C8_gripper_dwell NavigationManager.init NavigationManager.init
      (⟨TaskType.gripper, 0, some 0⟩ : Task) 0 2 rfl rfl).1

/-- While `task_paused` is set — in particular right after `_pause_task_queue`
and before `resume_task_queue` — `add_task` returns `False` and leaves the
state (hence the queue length) unchanged; while it is clear, `add_task`
appends the new task at the tail and returns `True`. -/
theorem C6_enqueue_respects_pause (s : NavigationManager) (ty : TaskType) (p : Payload)
    (now : ℚ) :
    (s.task_paused = true → add_task s ty p now = (false, s)) ∧
    add_task (pause_task_queue s) ty p now = (false, pause_task_queue s) ∧
    (s.task_paused = false →
      add_task s ty p now =
        (true, { s with task_queue := s.task_queue ++ [Task.create ty p] })) := by
  refine ⟨fun hp => ?_, ?_, fun hp => ?_⟩
  · simp [add_task, hp]
  · simp [add_task, pause_task_queue]
  · simp [add_task, hp]

/-- Witness for `C6_enqueue_respects_pause`: a paused and an unpaused enqueue. -/
theorem C6_witness :
    add_task { NavigationManager.init with task_paused := true } TaskType.gripper 1 0 =
      (false, { NavigationManager.init with task_paused := true }) ∧
    add_task NavigationManager.init TaskType.gripper 1 0 =
      (true, { NavigationManager.init with task_queue := [Task.create TaskType.gripper 1] }) :=
  ⟨(C6_enqueue_respects_pause { NavigationManager.init with task_paused := true }
      TaskType.gripper 1 0).1 rfl,
   (C6_enqueue_respects_pause NavigationManager.init TaskType.gripper 1 0).2.2 rfl⟩

/-- `set_task_completion_delay` rejects a negative delay, leaving the whole
state unchanged, and stores a non-negative delay, changing no other field. -/
theorem C10_set_delay (s : NavigationManager) (d : ℚ) :
    (d < 0 → set_task_completion_delay s d = s) ∧
    (0 ≤ d → set_task_completion_delay s d = { s with task_completion_delay := d }) := by
  constructor
  · intro hd
    simp [set_task_completion_delay, hd]
  · intro hd
    rw [set_task_completion_delay, if_neg (by linarith)]

/-- Witness for `C10_set_delay` at delays −1 and 3. -/
theorem C10_witness :
    set_task_completion_delay NavigationManager.init (-1) = NavigationManager.init ∧
    set_task_completion_delay NavigationManager.init 3 =
      { NavigationManager.init with task_completion_delay := 3 } :=
  ⟨(C10_set_delay NavigationManager.init (-1)).1 (by norm_num),
   (C10_set_delay NavigationManager.init 3).2 (by norm_num)⟩

/-- The claim that every `Task` carries an `enqueued_at` timestamp set at
creation is false of the source: `Task.__init__` stores only the type, the
payload and `start_time = None`, and `add_task` reads no clock — enqueuing the
same command at clock 0 and at clock 100 produces identical results, so the
created task records nothing about its creation time, and its only timestamp
field is still `none`. -/
theorem C9_counterexample :
    add_task NavigationManager.init TaskType.navigation 7 0 =
      add_task NavigationManager.init TaskType.navigation 7 100 ∧
    (Task.create TaskType.navigation 7).start_time = none :=
  ⟨rfl, rfl⟩

/-- Amended C9: a `Task` records no creation timestamp (enqueues at any two
clock values are indistinguishable); its only timestamp, `start_time`, is
`None` from creation until the task is dequeued for execution, at which point
`try_take_next` dispatches it with `start_time` set to the dispatch clock. -/
theorem C9_start_time_lifecycle (s : NavigationManager) (ty : TaskType) (p : Payload)
    (n1 n2 now : ℚ) :
    (Task.create ty p).start_time = none ∧
    add_task s ty p n1 = add_task s ty p n2 ∧
    (∀ d s2, try_take_next s now = (some d, s2) →
        d.start_time = some now ∧ s2.current_task = some d) := by
  refine ⟨rfl, rfl, fun d s2 h => ?_⟩
  rcases hc : s.current_task with _ | c
  · rcases hq : s.task_queue with _ | ⟨hd, tl⟩
    · rw [try_take_next, hc, hq] at h
      exact Prod.noConfusion h fun h1 _ => Option.noConfusion h1
    · rw [try_take_next, hc, hq] at h
      obtain ⟨h1, h2⟩ := Prod.mk.injEq .. ▸ h
      refine ⟨?_, ?_⟩
      · rw [← Option.some.injEq] at h1
        simp at h1
        rw [← h1]
        rfl
      · rw [← h2]
        simp [← h1]
  · rw [try_take_next, hc] at h
    exact Prod.noConfusion h fun h1 _ => Option.noConfusion h1

/-- Witness for `C9_start_time_lifecycle`: dequeuing a queued gripper task at
clock 3 stamps it with `start_time = 3` and makes it current. -/
theorem C9_witness :
    (Task.create TaskType.gripper 1).start_time = none ∧
    (execute_task (Task.create TaskType.gripper 1) 3).start_time = some 3 :=
  ⟨(C9_start_time_lifecycle NavigationManager.init TaskType.gripper 1 0 0 3).1,
   ((C9_start_time_lifecycle
        { NavigationManager.init with task_queue := [Task.create TaskType.gripper 1] }
        TaskType.gripper 1 0 0 3).2.2
      (execute_task (Task.create TaskType.gripper 1) 3) _ rfl).1⟩

/-- On a tick after the 2.0-second settle window with `nav_status` 1 (fault)
or 4 (hand-controller override), the current navigation task is reported
complete with `_pause_task_queue` applied, and the tick ends with
`task_paused` set, no current task, and an empty queue — however many tasks
were queued. -/
theorem C1_nav_fault_escalation (s : NavigationManager) (t : Task) (st now : ℚ)
    (hp : s.task_paused = false) (hcur : s.current_task = some t)
    (hty : t.task_type = TaskType.navigation) (hst : t.start_time = some st)
    (helap : 2 ≤ now - st) (hstat : s.nav_status = 1 ∨ s.nav_status = 4) :
    is_task_completed s (some t) now = .ok (true, pause_task_queue s) ∧
    (task_executor_tick s now).state.task_paused = true ∧
    (task_executor_tick s now).state.current_task = none ∧
    (task_executor_tick s now).state.task_queue.length = 0 := by
  have hcomp : is_task_completed s (some t) now = .ok (true, pause_task_queue s) := by
    obtain ⟨ty, p, stOpt⟩ := t
    simp only at hty hst
    subst hty; subst hst
    simp only [is_task_completed]
    rcases hstat with h | h
    · rw [if_neg (by linarith), if_pos h]
    · rw [if_neg (by linarith), if_neg (by omega), if_pos h]
  have htick : task_executor_tick s now =
      ⟨pause_task_queue s, none,
        some "AttributeError: NoneType object has no attribute start_time"⟩ := by
    rw [task_executor_tick, if_neg (by simp [hp]), hcur]
    simp only [hcomp, tick_complete_current, pause_task_queue]
  rw [htick]
  exact ⟨hcomp, rfl, rfl, rfl⟩

/-- Witness for `C1_nav_fault_escalation`: nav fault at clock 5 with one task
queued behind the current one. -/
theorem C1_witness :
    is_task_completed
        { NavigationManager.init with
            nav_status := 1
          , task_queue := [Task.create TaskType.gripper 1]
          , current_task := some (⟨TaskType.navigation, 0, some 0⟩ : Task) }
        (some (⟨TaskType.navigation, 0, some 0⟩ : Task)) 5 =
      .ok (true, pause_task_queue
        { NavigationManager.init with
            nav_status := 1
          , task_queue := [Task.create TaskType.gripper 1]
          , current_task := some (⟨TaskType.navigation, 0, some 0⟩ : Task) }) ∧
    (task_executor_tick
        { NavigationManager.init with
            nav_status := 1
          , task_queue := [Task.create TaskType.gripper 1]
          , current_task := some (⟨TaskType.navigation, 0, some 0⟩ : Task) }
        5).state.task_paused = true ∧
    (task_executor_tick
        { NavigationManager.init with
            nav_status := 1
          , task_queue := [Task.create TaskType.gripper 1]
          , current_task := some (⟨TaskType.navigation, 0, some 0⟩ : Task) }
        5).state.current_task = none ∧
    (task_executor_tick
        { NavigationManager.init with
            nav_status := 1
          , task_queue := [Task.create TaskType.gripper 1]
          , current_task := some (⟨TaskType.navigation, 0, some 0⟩ : Task) }
        5).state.task_queue.length = 0 :=
  C1_nav_fault_escalation _ (⟨TaskType.navigation, 0, some 0⟩ : Task) 0 5
    rfl rfl rfl rfl (by norm_num) (Or.inl rfl)

/-- C3 fails on the code: on the navigation-fault completion path,
`_pause_task_queue` clears `current_task` before `_is_task_completed`
returns, so the duration computation at line 253 dereferences `None` — the
tick raises an `AttributeError` (caught by the loop's catch-all) and
`task_completion_time` is never recorded, instead of completing normally. -/
theorem C3_fault_tick_raises :
    (task_executor_tick
        { NavigationManager.init with
            nav_status := 1
          , task_queue := [Task.create TaskType.gripper 1]
          , current_task := some (⟨TaskType.navigation, 0, some 0⟩ : Task) }
        5).raised =
      some "AttributeError: NoneType object has no attribute start_time" ∧
    (task_executor_tick
        { NavigationManager.init with
            nav_status := 1
          , task_queue := [Task.create TaskType.gripper 1]
          , current_task := some (⟨TaskType.navigation, 0, some 0⟩ : Task) }
        5).state.task_completion_time = none ∧
    (task_executor_tick
        { NavigationManager.init with
            nav_status := 1
          , task_queue := [Task.create TaskType.gripper 1]
          , current_task := some (⟨TaskType.navigation, 0, some 0⟩ : Task) }
        5).dispatched = none := by
  refine ⟨?_, ?_, ?_⟩ <;>
    norm_num [task_executor_tick, tick_complete_current, is_task_completed,
      pause_task_queue, NavigationManager.init, Task.create]

/-- `try_take_next` pops only the head: when it yields a task, there was no
current task, the queue was `hd :: rest`, the dispatched task is `hd` stamped
with the dispatch clock, and the remaining queue is `rest`. -/
lemma try_take_next_some (s : NavigationManager) (now : ℚ) (d : Task)
    (s2 : NavigationManager) (h : try_take_next s now = (some d, s2)) :
    s.current_task = none ∧ ∃ hd rest, s.task_queue = hd :: rest ∧
      d = execute_task hd now ∧ s2.task_queue = rest := by
  rcases hc : s.current_task with _ | c <;> rcases hq : s.task_queue with _ | ⟨hd, tl⟩ <;>
    rw [try_take_next, hc, hq] at h
  · exact absurd h (by simp)
  · simp only [Prod.mk.injEq, Option.some.injEq] at h
    obtain ⟨h1, h2⟩ := h
    exact ⟨rfl, hd, tl, rfl, h1.symm, by rw [← h2]⟩
  · exact absurd h (by simp)
  · exact absurd h (by simp)

/-- The cooldown-gate-plus-dequeue stage dispatches only when no task is
current, its cooldown (when one is pending) has elapsed, and the queue is
non-empty; it then dispatches the head and keeps the tail. -/
lemma cooldown_and_take_some (s : NavigationManager) (now : ℚ) (d : Task)
    (h : (cooldown_and_take s now).2 = some d) :
    s.current_task = none ∧
    (s.task_completion_time = none ∨
      ∃ tc, s.task_completion_time = some tc ∧ s.task_completion_delay ≤ now - tc) ∧
    ∃ hd rest, s.task_queue = hd :: rest ∧ d = execute_task hd now ∧
      (cooldown_and_take s now).1.task_queue = rest := by
  rcases ht : s.task_completion_time with _ | tc
  · have hred : cooldown_and_take s now =
        ((try_take_next s now).2, (try_take_next s now).1) := by
      rw [cooldown_and_take, ht]
    rw [hred] at h ⊢
    replace h : (try_take_next s now).1 = some d := h
    have hr : try_take_next s now = (some d, (try_take_next s now).2) := by rw [← h]
    obtain ⟨hcur, hd, rest, hq, hdq, hrest⟩ :=
      try_take_next_some s now d (try_take_next s now).2 hr
    exact ⟨hcur, Or.inl rfl, hd, rest, hq, hdq, hrest⟩
  · by_cases hcd : now - tc < s.task_completion_delay
    · have hred : cooldown_and_take s now = (s, none) := by
        simp only [cooldown_and_take, ht]
        rw [if_pos hcd]
      rw [hred] at h
      exact Option.noConfusion h
    · have hred : cooldown_and_take s now =
        ((try_take_next { s with task_completion_time := none } now).2,
          (try_take_next { s with task_completion_time := none } now).1) := by
        simp only [cooldown_and_take, ht]
        rw [if_neg hcd]
      rw [hred] at h ⊢
      replace h : (try_take_next { s with task_completion_time := none } now).1 = some d := h
      have hr : try_take_next { s with task_completion_time := none } now =
          (some d, (try_take_next { s with task_completion_time := none } now).2) := by
        rw [← h]
      obtain ⟨hcur, hd, rest, hq, hdq, hrest⟩ :=
        try_take_next_some { s with task_completion_time := none } now d _ hr
      exact ⟨hcur, Or.inr ⟨tc, rfl, by linarith⟩, hd, rest, hq, hdq, hrest⟩

/-- When a tick dispatches a task, the pause flag was clear and the dispatch
came from `cooldown_and_take` run on a state whose queue equals the tick's
starting queue (the completion stage never grows or reorders the queue on a
dispatching path). -/
lemma tick_dispatch_some (s : NavigationManager) (now : ℚ) (d : Task)
    (h : (task_executor_tick s now).dispatched = some d) :
    s.task_paused = false ∧
    ∃ sMid, sMid.task_queue = s.task_queue ∧
      (cooldown_and_take sMid now).2 = some d ∧
      (task_executor_tick s now).state = (cooldown_and_take sMid now).1 := by
  by_cases hp : s.task_paused = true
  · rw [task_executor_tick, if_pos hp] at h
    exact absurd h (by simp)
  · have hp2 : s.task_paused = false := by simpa using hp
    refine ⟨hp2, ?_⟩
    rcases hc : s.current_task with _ | c
    · rw [task_executor_tick, if_neg hp, hc] at h ⊢
      exact ⟨s, rfl, h, rfl⟩
    · rcases hic : is_task_completed s (some c) now with e | ⟨b, s1⟩
      · have htick : task_executor_tick s now = ⟨s, none, some e⟩ := by
          rw [task_executor_tick, if_neg hp, hc, hic]
        rw [htick] at h
        exact Option.noConfusion h
      · rcases b
        · have htick : task_executor_tick s now = ⟨s1, none, none⟩ := by
            rw [task_executor_tick, if_neg hp, hc, hic]
          rw [htick] at h
          exact Option.noConfusion h
        · have h0 : task_executor_tick s now = tick_complete_current s1 now := by
            rw [task_executor_tick, if_neg hp, hc, hic]
          rcases hc1 : s1.current_task with _ | c1
          · have htick : task_executor_tick s now =
                ⟨s1, none,
                  some "AttributeError: NoneType object has no attribute start_time"⟩ := by
              rw [h0, tick_complete_current, hc1]
            rw [htick] at h
            exact Option.noConfusion h
          · have hs1 : s1 = s := by
              rcases is_task_completed_state_cases s (some c) now true s1 hic with h9 | h9
              · exact h9
              · rw [h9] at hc1
                exact absurd hc1 (by simp [pause_task_queue])
            have htick : task_executor_tick s now =
                ⟨(cooldown_and_take
                    { s1 with task_completion_time := some now, current_task := none } now).1,
                  (cooldown_and_take
                    { s1 with task_completion_time := some now, current_task := none } now).2,
                  none⟩ := by
              rw [h0, tick_complete_current, hc1]
            rw [htick] at h ⊢
            exact ⟨{ s1 with task_completion_time := some now, current_task := none },
              by rw [hs1], h, rfl⟩

/-- Tasks enqueued while not paused go to the tail in arrival order, and a
dispatching tick always takes the head of the queue and leaves the tail:
together, strict FIFO order with no reordering. -/
theorem C4_fifo_order (s : NavigationManager) (ts : List (TaskType × Payload)) (now : ℚ)
    (hp : s.task_paused = false) :
    (enqueue_all s ts now).task_queue =
      s.task_queue ++ ts.map (fun tp => Task.create tp.1 tp.2) ∧
    (∀ s' now' hd rest d, s'.task_queue = hd :: rest →
        (task_executor_tick s' now').dispatched = some d →
        d = execute_task hd now' ∧
        (task_executor_tick s' now').state.task_queue = rest) := by
  constructor
  · induction ts generalizing s with
    | nil => simp [enqueue_all]
    | cons hd tl ih =>
      have hstep : (add_task s hd.1 hd.2 now).2 =
          { s with task_queue := s.task_queue ++ [Task.create hd.1 hd.2] } := by
        simp [add_task, hp]
      have hsplit : enqueue_all s (hd :: tl) now =
          enqueue_all { s with task_queue := s.task_queue ++ [Task.create hd.1 hd.2] } tl now := by
        rw [enqueue_all, List.foldl_cons, hstep, enqueue_all]
      rw [hsplit,
        ih { s with task_queue := s.task_queue ++ [Task.create hd.1 hd.2] } hp]
      simp
  · intro s' now' hd rest d hq h
    obtain ⟨-, sMid, hqm, hcd, hst⟩ := tick_dispatch_some s' now' d h
    obtain ⟨-, -, hd2, rest2, hq2, hdq, hrest⟩ := cooldown_and_take_some sMid now' d hcd
    rw [hqm, hq] at hq2
    obtain ⟨h1, h2⟩ := List.cons.injEq .. ▸ hq2
    constructor
    · rw [hdq, h1]
    · rw [hst, hrest, h2]

/-- Witness for `C4_fifo_order`: two commands enqueue in order behind an
existing queue, and a tick on a singleton queue dispatches its head. -/
theorem C4_witness :
    (enqueue_all NavigationManager.init
        [(TaskType.navigation, 0), (TaskType.gripper, 1)] 0).task_queue =
      [Task.create TaskType.navigation 0, Task.create TaskType.gripper 1] ∧
    (task_executor_tick
        { NavigationManager.init with task_queue := [Task.create TaskType.gripper 2] }
        1).state.task_queue = [] := by
  refine ⟨(C4_fifo_order NavigationManager.init _ 0 rfl).1, ?_⟩
  exact ((C4_fifo_order NavigationManager.init [] 0 rfl).2
    { NavigationManager.init with task_queue := [Task.create TaskType.gripper 2] }
    1 (Task.create TaskType.gripper 2) [] (execute_task (Task.create TaskType.gripper 2) 1)
    rfl rfl).2

/-- At most one task is in flight (the source keeps it in the single field
`current_task`), and a dequeue happens only with no current task, a non-empty
queue, the pause flag clear, and any pending completion cooldown elapsed;
`try_take_next` never succeeds while a task is current. -/
theorem C5_single_flight_take_conditions (s : NavigationManager) (now : ℚ) :
    s.current_task.toList.length ≤ 1 ∧
    (∀ d s2, try_take_next s now = (some d, s2) →
        s.current_task = none ∧ s.task_queue ≠ []) ∧
    (s.current_task ≠ none → (try_take_next s now).1 = none) ∧
    ((task_executor_tick s now).dispatched.isSome = true → s.task_paused = false) ∧
    ((cooldown_and_take s now).2.isSome = true →
        s.current_task = none ∧
        (s.task_completion_time = none ∨
          ∃ tc, s.task_completion_time = some tc ∧
            s.task_completion_delay ≤ now - tc)) := by
  refine ⟨?_, ?_, ?_, ?_, ?_⟩
  · rcases s.current_task <;> simp
  · intro d s2 h
    obtain ⟨h1, hd, rest, hq, -, -⟩ := try_take_next_some s now d s2 h
    exact ⟨h1, by rw [hq]; exact List.cons_ne_nil hd rest⟩
  · intro hne
    rcases hc : s.current_task with _ | c
    · exact absurd hc hne
    · rcases hq : s.task_queue with _ | ⟨hd, tl⟩ <;> rw [try_take_next, hc, hq]
  · intro hdp
    rcases hd : (task_executor_tick s now).dispatched with _ | d
    · rw [hd] at hdp
      exact absurd hdp (by simp)
    · exact (tick_dispatch_some s now d hd).1
  · intro hdp
    rcases hd : (cooldown_and_take s now).2 with _ | d
    · rw [hd] at hdp
      exact absurd hdp (by simp)
    · obtain ⟨h1, h2, -⟩ := cooldown_and_take_some s now d hd
      exact ⟨h1, h2⟩

/-- Witness for `C5_single_flight_take_conditions`: a successful take on an
idle state with one queued task. -/
theorem C5_witness :
    ({ NavigationManager.init with
        task_queue := [Task.create TaskType.gripper 2] } : NavigationManager).current_task
      = none ∧
    ({ NavigationManager.init with
        task_queue := [Task.create TaskType.gripper 2] } : NavigationManager).task_queue
      ≠ [] :=
  (C5_single_flight_take_conditions
      { NavigationManager.init with task_queue := [Task.create TaskType.gripper 2] }
      1).2.1
    (execute_task (Task.create TaskType.gripper 2) 1) _ rfl

end MqttManager
